import Mathlib

/-!
Verification of the Nutrition Target Calculator
(`src/lib/nutrition-calculator.ts`).

Numbers are modelled as exact rationals (`ℚ`); `Math.round` becomes
`jsRound` (round half toward positive infinity); JavaScript `null` and
`undefined` both become `Option.none`; the insufficient-data sentinel `{}`
returned by `calculateEstimatedDailyTargets` becomes `Option.none` on the
result side.
-/

set_option autoImplicit false

/-- An entry of the activity-level lookup table.
Modelled from the spec: the `activityLevels` table lives in
`src/lib/constants`, which is not among the sources; the spec describes it
as an ordered list of `\x7b value, activityFactor, proteinFactorPerKg \x7d`
records, looked up by exact string match on `value`.  The calculator
functions below therefore take the table as an explicit parameter. -/
structure ActivityLevel where
  value : String
  activityFactor : ℚ
  proteinFactorPerKg : ℚ
deriving DecidableEq

/-- JavaScript falsiness of an optional string: `!s` holds for `undefined`,
`null` and the empty string (`none` stands for both `null` and `undefined`). -/
def jsStrFalsy : Option String → Bool
  | none => true
  | some s => s == ""

/-- The `x || d` defaulting idiom of the source applied to an optional
number: yields `d` when the value is missing or zero (zero being the falsy
numeric case reachable here). -/
def jsNumOrDefault : Option ℚ → ℚ → ℚ
  | none, d => d
  | some v, d => if v = 0 then d else v

/-- JavaScript `Math.round`: round to nearest integer, halves toward
positive infinity. -/
def jsRound (q : ℚ) : ℚ := ((⌊q + 1 / 2⌋ : ℤ) : ℚ)

/-- Mifflin-St Jeor BMR, translated from `calculateBMR`
(nutrition-calculator.ts, lines 13-28). -/
def calculateBMR (gender : String) (weightKg heightCm ageYears : ℚ) : ℚ :=
  if gender = "male" then
    10 * weightKg + 6.25 * heightCm - 5 * ageYears + 5
  else if gender = "female" then
    10 * weightKg + 6.25 * heightCm - 5 * ageYears - 161
  else
    ((10 * weightKg + 6.25 * heightCm - 5 * ageYears + 5) +
      (10 * weightKg + 6.25 * heightCm - 5 * ageYears - 161)) / 2

/-- Translated from `calculateTDEE` (lines 36-40).  The source expression
`level?.activityFactor || 1.2` falls back to `1.2` both when the key is not
found and when the stored factor is `0` (falsy). -/
def calculateTDEE (activityLevels : List ActivityLevel) (bmr : ℚ)
    (activityLevelValue : String) : ℚ :=
  bmr * jsNumOrDefault
    ((activityLevels.find? (fun l => l.value == activityLevelValue)).map
      (fun l => l.activityFactor)) 1.2

/-- Translated from `calculateRecommendedProtein` (lines 48-55); same
`|| 0.8` fallback structure as `calculateTDEE`. -/
def calculateRecommendedProtein (activityLevels : List ActivityLevel)
    (weightKg : ℚ) (activityLevelValue : String) : ℚ :=
  weightKg * jsNumOrDefault
    ((activityLevels.find? (fun l => l.value == activityLevelValue)).map
      (fun l => l.proteinFactorPerKg)) 0.8

/-- Translated from the private helper `adjustTDEEForDietGoal`
(lines 63-72): `recomp` and `maintain_weight` fall through to `tdee`. -/
def adjustTDEEForDietGoal (tdee : ℚ) (dietGoal : String) : ℚ :=
  if dietGoal = "fat_loss" then tdee - 500
  else if dietGoal = "muscle_gain" then tdee + 300
  else tdee

/-- The goal-adjusted target calories computed inline by
`calculateEstimatedDailyTargets` (lines 121-128): unlike
`adjustTDEEForDietGoal`, it applies a `-200` deficit for `recomp`. -/
def inlineTargetCalories (tdee : ℚ) (dietGoal : String) : ℚ :=
  if dietGoal = "fat_loss" then tdee - 500
  else if dietGoal = "muscle_gain" then tdee + 300
  else if dietGoal = "recomp" then tdee - 200
  else tdee

/-- The `(protein, carb, fat)` percentage triple selected by `dietGoal`
in `calculateEstimatedDailyTargets` (lines 131-147). -/
def splitPcts (dietGoal : String) : ℚ × ℚ × ℚ :=
  if dietGoal = "fat_loss" then (0.35, 0.35, 0.3)
  else if dietGoal = "muscle_gain" then (0.3, 0.5, 0.2)
  else if dietGoal = "recomp" then (0.4, 0.35, 0.25)
  else (0.25, 0.5, 0.25)

/-- The profile argument of `calculateEstimatedDailyTargets`
(lines 78-89); every field is optional in the source. -/
structure Profile where
  gender : Option String
  currentWeight : Option ℚ
  height : Option ℚ
  age : Option ℚ
  activityLevel : Option String
  dietGoal : Option String
  goalWeight : Option ℚ
  bf_current : Option ℚ
  bf_target : Option ℚ
  waist_current : Option ℚ
  waist_goal_1m : Option ℚ
deriving DecidableEq

/-- The populated result record of `calculateEstimatedDailyTargets`
(lines 90-97 and 155-162). -/
structure TargetResult where
  finalTargetCalories : ℚ
  proteinGrams : ℚ
  carbGrams : ℚ
  fatGrams : ℚ
  bmr : ℚ
  tdee : ℚ
deriving DecidableEq

/-- The body of `calculateEstimatedDailyTargets` after the precondition
gate (lines 112-162), with the six required fields already extracted.  The
reassigned `let` variables of the source become if-chains. -/
def completeTargets (activityLevels : List ActivityLevel) (gender : String)
    (currentWeight height age : ℚ) (activityLevel dietGoal : String) :
    TargetResult :=
  let bmr := calculateBMR gender currentWeight height age
  let tdee := calculateTDEE activityLevels bmr activityLevel
  let targetCalories :=
    if dietGoal = "fat_loss" then tdee - 500
    else if dietGoal = "muscle_gain" then tdee + 300
    else if dietGoal = "recomp" then tdee - 200
    else tdee
  let proteinTargetPct : ℚ :=
    if dietGoal = "fat_loss" then 0.35
    else if dietGoal = "muscle_gain" then 0.3
    else if dietGoal = "recomp" then 0.4
    else 0.25
  let carbTargetPct : ℚ :=
    if dietGoal = "fat_loss" then 0.35
    else if dietGoal = "muscle_gain" then 0.5
    else if dietGoal = "recomp" then 0.35
    else 0.5
  let fatTargetPct : ℚ :=
    if dietGoal = "fat_loss" then 0.3
    else if dietGoal = "muscle_gain" then 0.2
    else if dietGoal = "recomp" then 0.25
    else 0.25
  let proteinGrams := jsRound (targetCalories * proteinTargetPct / 4)
  let carbGrams := jsRound (targetCalories * carbTargetPct / 4)
  let fatGrams := jsRound (targetCalories * fatTargetPct / 9)
  ⟨targetCalories, proteinGrams, carbGrams, fatGrams, bmr, tdee⟩

/-- Translated from `calculateEstimatedDailyTargets` (lines 78-163).
The precondition gate (lines 98-110) rejects `null`/`undefined` for the
three numeric fields and any falsy value (`null`/`undefined`/empty string)
for the three string fields; `none` on the result side is the source's
empty-object sentinel `\x7b\x7d`. -/
def calculateEstimatedDailyTargets (activityLevels : List ActivityLevel)
    (profile : Profile) : Option TargetResult :=
  match profile.gender, profile.currentWeight, profile.height, profile.age,
      profile.activityLevel, profile.dietGoal with
  | some gender, some currentWeight, some height, some age,
      some activityLevel, some dietGoal =>
    if gender = "" ∨ activityLevel = "" ∨ dietGoal = "" then none
    else some (completeTargets activityLevels gender currentWeight height age
      activityLevel dietGoal)
  | _, _, _, _, _, _ => none

/-- A complete fat-loss profile used as a concrete test input. -/
def profFatLoss : Profile :=
  ⟨some ("male"), some 70, some 175, some 30, some ("zzz"), some ("fat_loss"),
    none, none, none, none, none⟩

/-- The calculator's output on `profFatLoss` with an empty activity table:
bmr 1648.75, tdee 1978.5, target 1478.5, grams 129/129/49. -/
def resFatLoss : TargetResult := ⟨1478.5, 129, 129, 49, 1648.75, 1978.5⟩

/-- A degenerate but gate-passing profile (height and age 0) whose target
calories are 90; it exhibits a large independent-rounding drift. -/
def profTiny : Profile :=
  ⟨some ("male"), some 7, some 0, some 0, some ("zzz"), some ("maintain"),
    none, none, none, none, none⟩

/-- The calculator's output on `profTiny`: grams 6/11/3, so the
reconstructed calorie sum is 95 against target 90. -/
def resTiny : TargetResult := ⟨90, 6, 11, 3, 75, 90⟩

/-- A complete recomp profile whose TDEE is exactly 1000 (activity factor
1 in the table below). -/
def profRecomp : Profile :=
  ⟨some ("male"), some 99.5, some 0, some 0, some ("s"), some ("recomp"),
    none, none, none, none, none⟩

/-- The calculator's output on `profRecomp` with table `[⟨"s", 1, 1⟩]`:
a 200 kcal recomp deficit is applied inline. -/
def resRecomp : TargetResult := ⟨800, 80, 70, 22, 1000, 1000⟩

/-- A complete profile with every optional extra field populated. -/
def profWithExtras : Profile :=
  ⟨some ("female"), some 60, some 165, some 28, some ("moderate"),
    some ("muscle_gain"), some 65, some 25, some 20, some 80, some 78⟩

/-- The same six required fields as `profWithExtras`, all extras absent. -/
def profNoExtras : Profile :=
  ⟨some ("female"), some 60, some 165, some 28, some ("moderate"),
    some ("muscle_gain"), none, none, none, none, none⟩

theorem jsRound_err (q : ℚ) : |jsRound q - q| ≤ 1 / 2 := by
  have h1 : ((⌊q + 1 / 2⌋ : ℤ) : ℚ) ≤ q + 1 / 2 := Int.floor_le _
  have h2 : q + 1 / 2 < ((⌊q + 1 / 2⌋ : ℤ) : ℚ) + 1 := Int.lt_floor_add_one _
  rw [jsRound, abs_le]
  constructor <;> linarith

theorem splitPcts_sum (dietGoal : String) :
    (splitPcts dietGoal).1 + (splitPcts dietGoal).2.1 + (splitPcts dietGoal).2.2 = 1 := by
  by_cases h1 : dietGoal = "fat_loss" <;> by_cases h2 : dietGoal = "muscle_gain" <;>
    by_cases h3 : dietGoal = "recomp" <;> simp [splitPcts, h1, h2, h3] <;> norm_num

theorem completeTargets_fields (activityLevels : List ActivityLevel)
    (gender : String) (currentWeight height age : ℚ) (activityLevel dietGoal : String) :
    completeTargets activityLevels gender currentWeight height age activityLevel dietGoal =
      ⟨inlineTargetCalories
          (calculateTDEE activityLevels (calculateBMR gender currentWeight height age)
            activityLevel) dietGoal,
        jsRound (inlineTargetCalories
          (calculateTDEE activityLevels (calculateBMR gender currentWeight height age)
            activityLevel) dietGoal * (splitPcts dietGoal).1 / 4),
        jsRound (inlineTargetCalories
          (calculateTDEE activityLevels (calculateBMR gender currentWeight height age)
            activityLevel) dietGoal * (splitPcts dietGoal).2.1 / 4),
        jsRound (inlineTargetCalories
          (calculateTDEE activityLevels (calculateBMR gender currentWeight height age)
            activityLevel) dietGoal * (splitPcts dietGoal).2.2 / 9),
        calculateBMR gender currentWeight height age,
        calculateTDEE activityLevels (calculateBMR gender currentWeight height age)
          activityLevel⟩ := by
  by_cases h1 : dietGoal = "fat_loss" <;> by_cases h2 : dietGoal = "muscle_gain" <;>
    by_cases h3 : dietGoal = "recomp" <;>
    simp [completeTargets, inlineTargetCalories, splitPcts, h1, h2, h3]

theorem calc_some_elim (activityLevels : List ActivityLevel) (profile : Profile)
    (r : TargetResult)
    (hr : calculateEstimatedDailyTargets activityLevels profile = some r) :
    ∃ gender weightKg heightCm ageYears activityKey dietGoal,
      profile.gender = some gender ∧ profile.currentWeight = some weightKg ∧
      profile.height = some heightCm ∧ profile.age = some ageYears ∧
      profile.activityLevel = some activityKey ∧ profile.dietGoal = some dietGoal ∧
      gender ≠ "" ∧ activityKey ≠ "" ∧ dietGoal ≠ "" ∧
      r = completeTargets activityLevels gender weightKg heightCm ageYears
        activityKey dietGoal := by
  obtain ⟨pg, pw, ph, pa, pal, pd, p7, p8, p9, p10, p11⟩ := profile
  cases pg <;> cases pw <;> cases ph <;> cases pa <;> cases pal <;> cases pd <;>
    simp only [calculateEstimatedDailyTargets] at hr <;>
    try exact Option.noConfusion hr
  rename_i gender weightKg heightCm ageYears activityKey dietGoal
  by_cases hcond : gender = "" ∨ activityKey = "" ∨ dietGoal = ""
  · rw [if_pos hcond] at hr
    exact absurd hr (by simp)
  · rw [if_neg hcond] at hr
    push_neg at hcond
    exact ⟨gender, weightKg, heightCm, ageYears, activityKey, dietGoal,
      rfl, rfl, rfl, rfl, rfl, rfl, hcond.1, hcond.2.1, hcond.2.2,
      (Option.some.inj hr).symm⟩

/-- Claim C4: `calculateBMR` returns the male Mifflin-St Jeor formula for
gender `"male"`, the female formula for `"female"`, and the arithmetic mean
of the two formulas on the same inputs for any other gender value. -/
theorem bmr_formula_by_gender (gender : String) (weightKg heightCm ageYears : ℚ) :
    (gender = "male" → calculateBMR gender weightKg heightCm ageYears =
      10 * weightKg + 6.25 * heightCm - 5 * ageYears + 5) ∧
    (gender = "female" → calculateBMR gender weightKg heightCm ageYears =
      10 * weightKg + 6.25 * heightCm - 5 * ageYears - 161) ∧
    (gender ≠ "male" → gender ≠ "female" →
      calculateBMR gender weightKg heightCm ageYears =
        ((10 * weightKg + 6.25 * heightCm - 5 * ageYears + 5) +
          (10 * weightKg + 6.25 * heightCm - 5 * ageYears - 161)) / 2) := by
  refine ⟨fun h => ?_, fun h => ?_, fun h1 h2 => ?_⟩
  · simp [calculateBMR, h]
  · simp [calculateBMR, h]
  · simp [calculateBMR, h1, h2]

/-- Witness for C4: the mean branch evaluated at a concrete input. -/
theorem bmr_formula_by_gender_witness :
    calculateBMR ("unspecified") 70 175 30 =
      ((10 * 70 + 6.25 * 175 - 5 * 30 + 5 : ℚ) +
        (10 * 70 + 6.25 * 175 - 5 * 30 - 161)) / 2 :=
  (bmr_formula_by_gender ("unspecified") 70 175 30).2.2 (by decide) (by decide)

/-- Claim C7 counterexample: at (70, 175, 30) the male formula evaluates to
1648.75, not the 1673.75 the claim states. -/
theorem bmr_sample_not_spec_value : calculateBMR ("male") 70 175 30 ≠ 1673.75 := by
  norm_num [calculateBMR]

/-- Claim C7 (amended): `calculateBMR` at weight 70, height 175, age 30
returns 1648.75 for `"male"`, 1482.75 for `"female"`, and their arithmetic
mean 1565.75 for `"other"` or the empty string. -/
theorem bmr_sample_values :
    calculateBMR ("male") 70 175 30 = 1648.75 ∧
    calculateBMR ("female") 70 175 30 = 1482.75 ∧
    calculateBMR ("other") 70 175 30 = 1565.75 ∧
    calculateBMR ("") 70 175 30 = 1565.75 ∧
    (1565.75 : ℚ) = (1648.75 + 1482.75) / 2 := by
  refine ⟨?_, ?_, ?_, ?_, by norm_num⟩ <;> (simp [calculateBMR]; try norm_num)

/-- Claim C9: each of the four macro-split triples selected by `dietGoal`
sums to exactly 1. -/
theorem split_pcts_sum_to_one :
    splitPcts ("fat_loss") = (0.35, 0.35, 0.3) ∧
    splitPcts ("muscle_gain") = (0.3, 0.5, 0.2) ∧
    splitPcts ("recomp") = (0.4, 0.35, 0.25) ∧
    splitPcts ("maintain") = (0.25, 0.5, 0.25) ∧
    ∀ dietGoal : String,
      (splitPcts dietGoal).1 + (splitPcts dietGoal).2.1 + (splitPcts dietGoal).2.2 = 1 :=
  ⟨by simp [splitPcts], by simp [splitPcts], by simp [splitPcts], by simp [splitPcts],
    splitPcts_sum⟩

/-- Claim C5 (amended): an unmatched activity key (the `find?` miss case)
makes `calculateTDEE` return `bmr * 1.2` and `calculateRecommendedProtein`
return `weightKg * 0.8`; a matched entry yields `bmr * activityFactor`
resp. `weightKg * proteinFactorPerKg` provided the matched factor is
nonzero (a zero factor is falsy, so the source's `||` default kicks in). -/
theorem activity_lookup_fallbacks (activityLevels : List ActivityLevel)
    (bmr weightKg : ℚ) (activityKey : String) :
    (activityLevels.find? (fun l => l.value == activityKey) = none →
      calculateTDEE activityLevels bmr activityKey = bmr * 1.2 ∧
      calculateRecommendedProtein activityLevels weightKg activityKey = weightKg * 0.8) ∧
    ∀ entry, activityLevels.find? (fun l => l.value == activityKey) = some entry →
      (entry.activityFactor ≠ 0 →
        calculateTDEE activityLevels bmr activityKey = bmr * entry.activityFactor) ∧
      (entry.proteinFactorPerKg ≠ 0 →
        calculateRecommendedProtein activityLevels weightKg activityKey =
          weightKg * entry.proteinFactorPerKg) := by
  constructor
  · intro hnone
    constructor <;>
      simp [calculateTDEE, calculateRecommendedProtein, hnone, jsNumOrDefault]
  · intro entry hsome
    constructor <;> intro hne <;>
      simp [calculateTDEE, calculateRecommendedProtein, hsome, jsNumOrDefault, hne]

/-- Witness for C5: both fallback and matched-entry branches at concrete
inputs. -/
theorem activity_lookup_fallbacks_witness :
    (calculateTDEE [] 1000 ("unknown") = 1000 * 1.2 ∧
      calculateRecommendedProtein [] 70 ("unknown") = 70 * 0.8) ∧
    calculateTDEE [⟨"s", 1.5, 0.9⟩] 1000 ("s") = 1000 * 1.5 ∧
    calculateRecommendedProtein [⟨"s", 1.5, 0.9⟩] 70 ("s") = 70 * 0.9 :=
  ⟨(activity_lookup_fallbacks [] 1000 70 ("unknown")).1 (by simp [List.find?]),
    ((activity_lookup_fallbacks [⟨"s", 1.5, 0.9⟩] 1000 70 ("s")).2 ⟨"s", 1.5, 0.9⟩
      (by simp [List.find?])).1 (by norm_num),
    ((activity_lookup_fallbacks [⟨"s", 1.5, 0.9⟩] 1000 70 ("s")).2 ⟨"s", 1.5, 0.9⟩
      (by simp [List.find?])).2 (by norm_num)⟩

/-- Claim C5 counterexample: an entry whose `proteinFactorPerKg` is `0` is
matched by `find?`, yet `calculateRecommendedProtein` returns
`weightKg * 0.8` (here 8) instead of `weightKg * proteinFactorPerKg`
(here 0), because `0` is falsy for the source's `||` default. -/
theorem protein_zero_factor_cex :
    ([⟨"active", 1.5, 0⟩] : List ActivityLevel).find?
        (fun l => l.value == "active") = some ⟨"active", 1.5, 0⟩ ∧
    calculateRecommendedProtein [⟨"active", 1.5, 0⟩] 10 ("active") = 8 ∧
    (8 : ℚ) ≠ 10 * 0 := by
  refine ⟨by simp [List.find?], ?_, by norm_num⟩
  simp [calculateRecommendedProtein, jsNumOrDefault, List.find?]
  norm_num

/-- Claim C1: the calculator returns the empty sentinel iff at least one
of the six required fields is absent (null/undefined for the numeric
fields; null/undefined/empty string for the string fields); otherwise it
returns a fully populated result, regardless of the remaining fields. -/
theorem targets_none_iff_required_missing (activityLevels : List ActivityLevel)
    (profile : Profile) :
    calculateEstimatedDailyTargets activityLevels profile = none ↔
      ((profile.gender = none ∨ profile.gender = some ("")) ∨
        profile.currentWeight = none ∨ profile.height = none ∨ profile.age = none ∨
        (profile.activityLevel = none ∨ profile.activityLevel = some ("")) ∨
        (profile.dietGoal = none ∨ profile.dietGoal = some (""))) := by
  obtain ⟨pg, pw, ph, pa, pal, pd, p7, p8, p9, p10, p11⟩ := profile
  cases pg <;> cases pw <;> cases ph <;> cases pa <;> cases pal <;> cases pd <;>
    (simp [calculateEstimatedDailyTargets]; try tauto)

/-- Claim C10: two profiles that agree on the six required fields produce
identical results; the extra fields (goalWeight, bf_current, bf_target,
waist_current, waist_goal_1m) have no influence on any output field. -/
theorem targets_ignore_extra_fields (activityLevels : List ActivityLevel)
    (p1 p2 : Profile)
    (hg : p1.gender = p2.gender) (hw : p1.currentWeight = p2.currentWeight)
    (hh : p1.height = p2.height) (ha : p1.age = p2.age)
    (hact : p1.activityLevel = p2.activityLevel) (hd : p1.dietGoal = p2.dietGoal) :
    calculateEstimatedDailyTargets activityLevels p1 =
      calculateEstimatedDailyTargets activityLevels p2 := by
  simp only [calculateEstimatedDailyTargets, hg, hw, hh, ha, hact, hd]

/-- Witness for C10: two concrete profiles differing in every extra field. -/
theorem targets_ignore_extra_fields_witness :
    calculateEstimatedDailyTargets [] profWithExtras =
      calculateEstimatedDailyTargets [] profNoExtras :=
  targets_ignore_extra_fields [] profWithExtras profNoExtras rfl rfl rfl rfl rfl rfl

/-- Claim C2: for every complete profile, `finalTargetCalories` is
`tdee - 500` for fat_loss, `tdee + 300` for muscle_gain, `tdee - 200` for
recomp, and `tdee` unchanged otherwise, where `tdee` is the returned tdee
field. -/
theorem final_calories_by_goal (activityLevels : List ActivityLevel)
    (profile : Profile) (r : TargetResult) (dietGoal : String)
    (hr : calculateEstimatedDailyTargets activityLevels profile = some r)
    (hd : profile.dietGoal = some dietGoal) :
    r.finalTargetCalories =
      if dietGoal = "fat_loss" then r.tdee - 500
      else if dietGoal = "muscle_gain" then r.tdee + 300
      else if dietGoal = "recomp" then r.tdee - 200
      else r.tdee := by
  obtain ⟨g, w, hgt, a, act, dg, hg2, hw2, hh2, ha2, hact2, hdg2, hne1, hne2, hne3, hr2⟩ :=
    calc_some_elim activityLevels profile r hr
  rw [hd] at hdg2
  injection hdg2 with he
  subst he
  subst hr2
  rfl

/-- Witness for C2: the fat-loss branch at a concrete profile. -/
theorem final_calories_by_goal_witness :
    resFatLoss.finalTargetCalories =
      if ("fat_loss" : String) = "fat_loss" then resFatLoss.tdee - 500
      else if ("fat_loss" : String) = "muscle_gain" then resFatLoss.tdee + 300
      else if ("fat_loss" : String) = "recomp" then resFatLoss.tdee - 200
      else resFatLoss.tdee :=
  final_calories_by_goal [] profFatLoss resFatLoss ("fat_loss")
    (by simp [calculateEstimatedDailyTargets, completeTargets, calculateBMR, calculateTDEE,
      jsNumOrDefault, jsRound, List.find?, profFatLoss, resFatLoss]; norm_num) rfl

/-- Claim C3: each gram field is the independently rounded conversion of
the goal's percentage of `finalTargetCalories` (protein and carb at
4 kcal/g, fat at 9 kcal/g), with the percentage triples (0.35, 0.35, 0.30)
/ (0.30, 0.50, 0.20) / (0.40, 0.35, 0.25) / default (0.25, 0.50, 0.25). -/
theorem gram_fields_by_goal (activityLevels : List ActivityLevel)
    (profile : Profile) (r : TargetResult) (dietGoal : String)
    (hr : calculateEstimatedDailyTargets activityLevels profile = some r)
    (hd : profile.dietGoal = some dietGoal) :
    r.proteinGrams = jsRound (r.finalTargetCalories * (splitPcts dietGoal).1 / 4) ∧
    r.carbGrams = jsRound (r.finalTargetCalories * (splitPcts dietGoal).2.1 / 4) ∧
    r.fatGrams = jsRound (r.finalTargetCalories * (splitPcts dietGoal).2.2 / 9) ∧
    splitPcts ("fat_loss") = (0.35, 0.35, 0.3) ∧
    splitPcts ("muscle_gain") = (0.3, 0.5, 0.2) ∧
    splitPcts ("recomp") = (0.4, 0.35, 0.25) ∧
    (dietGoal ≠ "fat_loss" → dietGoal ≠ "muscle_gain" → dietGoal ≠ "recomp" →
      splitPcts dietGoal = (0.25, 0.5, 0.25)) := by
  obtain ⟨g, w, hgt, a, act, dg, hg2, hw2, hh2, ha2, hact2, hdg2, hne1, hne2, hne3, hr2⟩ :=
    calc_some_elim activityLevels profile r hr
  rw [hd] at hdg2
  injection hdg2 with he
  subst he
  subst hr2
  rw [completeTargets_fields]
  exact ⟨rfl, rfl, rfl, by simp [splitPcts], by simp [splitPcts], by simp [splitPcts],
    fun h1 h2 h3 => by simp [splitPcts, h1, h2, h3]⟩

/-- Witness for C3: the fat-loss branch at a concrete profile. -/
theorem gram_fields_by_goal_witness :
    resFatLoss.proteinGrams =
      jsRound (resFatLoss.finalTargetCalories * (splitPcts ("fat_loss")).1 / 4) ∧
    resFatLoss.carbGrams =
      jsRound (resFatLoss.finalTargetCalories * (splitPcts ("fat_loss")).2.1 / 4) ∧
    resFatLoss.fatGrams =
      jsRound (resFatLoss.finalTargetCalories * (splitPcts ("fat_loss")).2.2 / 9) ∧
    splitPcts ("fat_loss") = (0.35, 0.35, 0.3) ∧
    splitPcts ("muscle_gain") = (0.3, 0.5, 0.2) ∧
    splitPcts ("recomp") = (0.4, 0.35, 0.25) ∧
    (("fat_loss" : String) ≠ "fat_loss" → ("fat_loss" : String) ≠ "muscle_gain" →
      ("fat_loss" : String) ≠ "recomp" → splitPcts ("fat_loss") = (0.25, 0.5, 0.25)) :=
  gram_fields_by_goal [] profFatLoss resFatLoss ("fat_loss")
    (by simp [calculateEstimatedDailyTargets, completeTargets, calculateBMR, calculateTDEE,
      jsNumOrDefault, jsRound, List.find?, profFatLoss, resFatLoss]; norm_num) rfl

theorem roundtrip_aux (t pp cp fp : ℚ) (hsum : pp + cp + fp = 1) :
    |jsRound (t * pp / 4) * 4 + jsRound (t * cp / 4) * 4 + jsRound (t * fp / 9) * 9 - t| ≤
      8.5 := by
  have e : jsRound (t * pp / 4) * 4 + jsRound (t * cp / 4) * 4 + jsRound (t * fp / 9) * 9 - t =
      (jsRound (t * pp / 4) - t * pp / 4) * 4 + (jsRound (t * cp / 4) - t * cp / 4) * 4 +
        (jsRound (t * fp / 9) - t * fp / 9) * 9 := by
    linear_combination t * hsum
  obtain ⟨l1, u1⟩ := abs_le.mp (jsRound_err (t * pp / 4))
  obtain ⟨l2, u2⟩ := abs_le.mp (jsRound_err (t * cp / 4))
  obtain ⟨l3, u3⟩ := abs_le.mp (jsRound_err (t * fp / 9))
  rw [e, abs_le]
  constructor <;> linarith

/-- Claim C6 counterexample: the gate-passing profile `profTiny` (target
calories 90) has reconstructed calorie sum 95, a 5 kcal drift, violating
the claimed `< 2` bound. -/
theorem roundtrip_cex :
    calculateEstimatedDailyTargets [] profTiny = some resTiny ∧
    ¬ |resTiny.proteinGrams * 4 + resTiny.carbGrams * 4 + resTiny.fatGrams * 9 -
        resTiny.finalTargetCalories| < 2 := by
  constructor
  · simp [calculateEstimatedDailyTargets, completeTargets, calculateBMR, calculateTDEE,
      jsNumOrDefault, jsRound, List.find?, profTiny, resTiny]
    norm_num
  · show ¬ |(6 : ℚ) * 4 + 11 * 4 + 3 * 9 - 90| < 2
    rw [abs_of_nonneg (by norm_num)]
    norm_num

/-- Claim C6 (amended): for every complete profile the reconstructed
calorie sum differs from `finalTargetCalories` by at most 8.5 kcal (half a
rounding step weighted by 4 + 4 + 9). -/
theorem roundtrip_within_8_5 (activityLevels : List ActivityLevel)
    (profile : Profile) (r : TargetResult)
    (hr : calculateEstimatedDailyTargets activityLevels profile = some r) :
    |r.proteinGrams * 4 + r.carbGrams * 4 + r.fatGrams * 9 - r.finalTargetCalories| ≤
      8.5 := by
  obtain ⟨g, w, hgt, a, act, dg, hg2, hw2, hh2, ha2, hact2, hdg2, hne1, hne2, hne3, hr2⟩ :=
    calc_some_elim activityLevels profile r hr
  subst hr2
  rw [completeTargets_fields]
  exact roundtrip_aux
    (inlineTargetCalories
      (calculateTDEE activityLevels (calculateBMR g w hgt a) act) dg)
    ((splitPcts dg).1) ((splitPcts dg).2.1) ((splitPcts dg).2.2) (splitPcts_sum dg)

/-- Witness for the amended C6 bound at a concrete profile. -/
theorem roundtrip_within_8_5_witness :
    |resTiny.proteinGrams * 4 + resTiny.carbGrams * 4 + resTiny.fatGrams * 9 -
        resTiny.finalTargetCalories| ≤ 8.5 :=
  roundtrip_within_8_5 [] profTiny resTiny
    (by simp [calculateEstimatedDailyTargets, completeTargets, calculateBMR, calculateTDEE,
      jsNumOrDefault, jsRound, List.find?, profTiny, resTiny]; norm_num)

/-- Claim C8 counterexample: on the recomp profile `profRecomp` (TDEE
1000) the pipeline's inline adjustment yields 800, while the helper
`adjustTDEEForDietGoal` returns the TDEE unchanged. -/
theorem adjust_helper_vs_inline_cex :
    calculateEstimatedDailyTargets [⟨"s", 1, 1⟩] profRecomp = some resRecomp ∧
    adjustTDEEForDietGoal resRecomp.tdee ("recomp") ≠ resRecomp.finalTargetCalories := by
  constructor
  · simp [calculateEstimatedDailyTargets, completeTargets, calculateBMR, calculateTDEE,
      jsNumOrDefault, jsRound, List.find?, profRecomp, resRecomp]
    norm_num
  · show adjustTDEEForDietGoal 1000 ("recomp") ≠ 800
    simp [adjustTDEEForDietGoal]
    try norm_num

/-- Claim C8 (amended): the helper agrees with the inline goal adjustment
for every dietGoal except `recomp`; there the inline computation applies a
200 kcal deficit while the helper returns `tdee` unchanged. -/
theorem adjust_helper_vs_inline (activityLevels : List ActivityLevel)
    (profile : Profile) (r : TargetResult) (dietGoal : String)
    (hr : calculateEstimatedDailyTargets activityLevels profile = some r)
    (hd : profile.dietGoal = some dietGoal) :
    r.finalTargetCalories = inlineTargetCalories r.tdee dietGoal ∧
    (dietGoal ≠ "recomp" →
      adjustTDEEForDietGoal r.tdee dietGoal = inlineTargetCalories r.tdee dietGoal) ∧
    adjustTDEEForDietGoal r.tdee ("recomp") = r.tdee ∧
    inlineTargetCalories r.tdee ("recomp") = r.tdee - 200 := by
  obtain ⟨g, w, hgt, a, act, dg, hg2, hw2, hh2, ha2, hact2, hdg2, hne1, hne2, hne3, hr2⟩ :=
    calc_some_elim activityLevels profile r hr
  rw [hd] at hdg2
  injection hdg2 with he
  subst he
  subst hr2
  refine ⟨rfl, fun hne => ?_, by simp [adjustTDEEForDietGoal],
    by simp [inlineTargetCalories]⟩
  by_cases h1 : dietGoal = "fat_loss" <;> by_cases h2 : dietGoal = "muscle_gain" <;>
    simp [adjustTDEEForDietGoal, inlineTargetCalories, h1, h2, hne]

/-- Witness for the amended C8 at the concrete recomp profile. -/
theorem adjust_helper_vs_inline_witness :
    resRecomp.finalTargetCalories = inlineTargetCalories resRecomp.tdee ("recomp") ∧
    (("recomp" : String) ≠ "recomp" →
      adjustTDEEForDietGoal resRecomp.tdee ("recomp") =
        inlineTargetCalories resRecomp.tdee ("recomp")) ∧
    adjustTDEEForDietGoal resRecomp.tdee ("recomp") = resRecomp.tdee ∧
    inlineTargetCalories resRecomp.tdee ("recomp") = resRecomp.tdee - 200 :=
  adjust_helper_vs_inline [⟨"s", 1, 1⟩] profRecomp resRecomp ("recomp")
    (by simp [calculateEstimatedDailyTargets, completeTargets, calculateBMR, calculateTDEE,
      jsNumOrDefault, jsRound, List.find?, profRecomp, resRecomp]; norm_num) rfl
